import Mathlib

/-!
Verification of `pbalign/alignservice/bowtie.py` (class `BowtieService`).

The Python module is shallowly embedded below:

* `Options` models the pbalign options record; the fields touched by this
  module (`maxHits`, `minAnchorSize`, `nproc`, `seed`) are integer valued in
  practice, so they are modelled as `Option Int` (`none` = Python `None`).
  `algorithmOptions` is an `Option String`.
* `resolveAlgorithmOptions` embeds `BowtieService._resolveAlgorithmOptions`.
  The Python `while` loop with in-place deletion at index `i` is rendered as
  the recursion `resolveLoop opts acc rem`, where `acc` holds the items before
  index `i` (those the scan moved past with `i += 1`) and `rem` holds
  `items[i:]`.  Every exception escaping the loop is a `ResolveErr`; the
  `Options` value at the moment of the raise is carried alongside, because the
  Python caller observes the mutated record.  Note that the source reads the
  attribute `options.npoc` (a typo for `nproc`) whenever `nproc` is already
  set, which raises `AttributeError`; this is embedded as
  `ResolveErr.attrErrorNpoc`.
* `bt2BaseName` / `bt2IndexFiles` embed the module-level path helpers, on top
  of faithful renderings of `posixpath.join`, `posixpath.basename` and the
  root component of `posixpath.splitext`.
* `bt2BuildIndex` embeds `_bt2BuildIndex` with the `backticks` subprocess
  result supplied as an explicit input, and `preProcessRegistrations` embeds
  the index-registration part of `_preProcess` (the temp-file manager is
  modelled as the list of `(file, own)` registrations it receives).
* `toCmd` embeds `_toCmd`.  Since the numeric fields are modelled as
  integers, the source's additional `!= ""` guard is vacuous here.
-/

/-- Accumulator for `pySplit`: walk the characters, cutting a new token at
every single space, exactly like Python `str.split(' ')`. -/
def splitSpaceAux : List Char → List Char → List String
  | [], cur => [String.mk cur.reverse]
  | c :: cs, cur =>
    if c = ' ' then String.mk cur.reverse :: splitSpaceAux cs []
    else splitSpaceAux cs (c :: cur)

/-- Python `s.split(' ')`: split at every single space; consecutive spaces
yield empty tokens and `"".split(' ') == ['']`. -/
def pySplit (s : String) : List String :=
  splitSpaceAux s.data []

/-- Python `' '.join(items)`. -/
def pyJoin : List String → String
  | [] => ""
  | [x] => x
  | x :: xs => x ++ " " ++ pyJoin xs

/-- Python `int()` applied to a chunk of digit characters: `some` of the value
when every character is a digit and the list is nonempty, else `none`. -/
def digitsVal : List Char → Nat → Option Nat
  | [], acc => some acc
  | c :: cs, acc =>
    if c.isDigit then digitsVal cs (acc * 10 + (c.toNat - 48)) else none

/-- Python `int(s)` on a whitespace-free token: an optional sign followed by a
nonempty run of digits; anything else raises `ValueError`, i.e. `none`. -/
def parseInt (s : String) : Option Int :=
  match s.data with
  | [] => none
  | '-' :: rest =>
    match rest with
    | [] => none
    | _ => (digitsVal rest 0).map (fun n => -(n : Int))
  | '+' :: rest =>
    match rest with
    | [] => none
    | _ => (digitsVal rest 0).map (fun n => (n : Int))
  | cs => (digitsVal cs 0).map (fun n => (n : Int))

/-- The pbalign options record, restricted to the fields `bowtie.py` uses. -/
structure Options where
  maxHits : Option Int
  minAnchorSize : Option Int
  nproc : Option Int
  seed : Option Int
  algorithmOptions : Option String
  deriving DecidableEq

/-- An exception escaping the scan loop of `_resolveAlgorithmOptions`.  In
Python all of these are re-raised as `ValueError` by the `except` clause; the
constructors record which situation produced the exception. -/
inductive ResolveErr where
  /-- `errMsg != ""`: a raw flag contradicts an already-set structured option.
  Carries the flag (`-k` or `-L`) and the structured option it names. -/
  | conflict (flag : String) (optName : String)
  /-- `int(items[i+1])` raised `ValueError`: the value token is not an
  integer literal. -/
  | parseError (token : String)
  /-- `items[i+1]` raised `IndexError`: a value-taking flag is the last
  token. -/
  | indexError
  /-- `options.npoc` raised `AttributeError`: the source misspells `nproc`
  in the `-p` branch, so the read fails whenever `nproc` is already set. -/
  | attrErrorNpoc
  deriving DecidableEq

/-- `ignoredBinaryOptions` of `_resolveAlgorithmOptions`: `-x`, `-S` are
computed by pbalign itself; `-1`, `-2`, `-U` are paired-end inputs; `-r`,
`-q`, `--qseq` are non-FASTA inputs; plus `--seed`. -/
def ignoredBinaryOptions : List String :=
  ["-x", "-S", "-1", "-2", "-U", "-r", "-q", "--qseq", "--seed"]

/-- `ignoredUnitaryOptions` of `_resolveAlgorithmOptions`. -/
def ignoredUnitaryOptions : List String := ["--version", "--help"]

/-- Every token the scan loop treats specially (all other tokens take the
`else: i += 1` branch and survive in place). -/
def specialTokens : List String :=
  "-k" :: "-L" :: "-p" :: (ignoredBinaryOptions ++ ignoredUnitaryOptions)

/-- The scan loop of `_resolveAlgorithmOptions`.  `acc` is `items[:i]` (the
tokens the scan already moved past), `rem` is `items[i:]`.  `.ok (o, out)`
is normal loop exit with final options state `o` and final item list `out`;
`.error (o, e)` is an exception raised with options state `o`. -/
def resolveLoop : Options → List String → List String →
    Except (Options × ResolveErr) (Options × List String)
  | opts, acc, [] => .ok (opts, acc)
  | opts, acc, item :: rest =>
    if item = "-k" then
      match rest with
      | [] => .error (opts, .indexError)
      | v :: rest2 =>
        match parseInt v with
        | none => .error (opts, .parseError v)
        | some val =>
          match opts.maxHits with
          | some m =>
            if m ≠ val then .error (opts, .conflict "-k" "--maxHits")
            else resolveLoop opts acc rest2
          | none => resolveLoop opts acc rest2
    else if item = "-L" then
      match rest with
      | [] => .error (opts, .indexError)
      | v :: rest2 =>
        match parseInt v with
        | none => .error (opts, .parseError v)
        | some val =>
          match opts.minAnchorSize with
          | some m =>
            if m ≠ val then .error (opts, .conflict "-L" "--minAnchorSize")
            else resolveLoop opts acc rest2
          | none => resolveLoop opts acc rest2
    else if item = "-p" then
      match rest with
      | [] => .error (opts, .indexError)
      | v :: rest2 =>
        match parseInt v with
        | none => .error (opts, .parseError v)
        | some val =>
          match opts.nproc with
          | none => resolveLoop { opts with nproc := some val } acc rest2
          | some _ => .error (opts, .attrErrorNpoc)
    else if item ∈ ignoredBinaryOptions then
      match rest with
      | [] => .ok (opts, acc)
      | _ :: rest2 => resolveLoop opts acc rest2
    else if item ∈ ignoredUnitaryOptions then
      resolveLoop opts acc rest
    else
      resolveLoop opts (acc ++ [item]) rest

/-- The scan loop started on a full token list (index 0). -/
def resolveItems (opts : Options) (items : List String) :
    Except (Options × ResolveErr) (Options × List String) :=
  resolveLoop opts [] items

/-- `BowtieService._resolveAlgorithmOptions`.  Returns the options record as
the caller observes it together with `none` on normal return or `some e` when
a `ValueError` is raised.  On normal return the re-joined item list is written
back to `algorithmOptions`; on an exception that field is untouched (the
write at the end of the function is never reached). -/
def resolveAlgorithmOptions (opts : Options) : Options × Option ResolveErr :=
  match opts.algorithmOptions with
  | none => (opts, none)
  | some ao =>
    match resolveItems opts (pySplit ao) with
    | .ok (o, items) =>
      ({ o with algorithmOptions := some (pyJoin items) }, none)
    | .error (o, e) => (o, some e)

/-- Options state carried by a loop result, whether normal or exceptional. -/
def exceptOptions (r : Except (Options × ResolveErr) (Options × List String)) :
    Options :=
  match r with
  | .ok (o, _) => o
  | .error (o, _) => o

/-- `posixpath.join(a, b)` for two components: an absolute `b` replaces `a`;
otherwise insert a separator unless `a` is empty or already ends in one. -/
def pathJoin (a b : String) : String :=
  if b.data.head? = some '/' then b
  else if a = "" ∨ a.data.getLast? = some '/' then a ++ b
  else a ++ "/" ++ b

/-- `posixpath.basename(p)`: everything after the last `/` (all of `p` when
there is none). -/
def basename (p : String) : String :=
  String.mk ((p.data.reverse.takeWhile (fun c => c ≠ '/')).reverse)

/-- Index of the last occurrence of `c` in `cs`, or `-1` when absent, like
Python `str.rfind`. -/
def rfindIdx (cs : List Char) (c : Char) : Int :=
  match cs with
  | [] => -1
  | x :: xs =>
    let r := rfindIdx xs c
    if r ≥ 0 then r + 1 else if x = c then 0 else -1

/-- Root component of `posixpath.splitext(p)`: cut at the last dot when it
lies after the last separator and at least one non-dot character stands
between them (so leading dots of a hidden file are not an extension). -/
def splitextRoot (p : String) : String :=
  let cs := p.data
  let sepIndex := rfindIdx cs '/'
  let dotIndex := rfindIdx cs '.'
  if sepIndex < dotIndex then
    let between := (cs.drop (sepIndex + 1).toNat).take (dotIndex - sepIndex - 1).toNat
    if between.any (fun c => c ≠ '.') then String.mk (cs.take dotIndex.toNat)
    else p
  else p

/-- `bt2BaseName(tempDir, refFile)`: basename of the bowtie2 index files,
`path.join(tempDir, path.splitext(path.basename(refFile))[0])`. -/
def bt2BaseName (tempDir refFile : String) : String :=
  pathJoin tempDir (splitextRoot (basename refFile))

/-- `bt2IndexFiles(baseName)`: the six bowtie2 index files, each
`'.'.join([baseName, ext])` over the fixed extension list. -/
def bt2IndexFiles (baseName : String) : List String :=
  ["1.bt2", "2.bt2", "3.bt2", "4.bt2", "rev.1.bt2", "rev.2.bt2"].map
    (fun ext => baseName ++ "." ++ ext)

/-- Result of `backticks(cmdStr)`: captured output, exit code, diagnostic
text.  The subprocess is outside the program, so its result is an input. -/
structure BackticksResult where
  output : String
  errCode : Int
  errMsg : String
  deriving DecidableEq

/-- `BowtieService._bt2BuildIndex`: on a non-zero exit code raise
`RuntimeError(errMsg)`, else return `bt2IndexFiles(refBaseName)`. -/
def bt2BuildIndex (tempDir referenceFile : String) (subproc : BackticksResult) :
    Except String (List String) :=
  let refBaseName := bt2BaseName tempDir referenceFile
  if subproc.errCode ≠ 0 then .error subproc.errMsg
  else .ok (bt2IndexFiles refBaseName)

/-- The index-registration part of `BowtieService._preProcess`: build the
index files, then register each with the temp-file manager with `own=True`.
The manager is modelled as the list of `(file, own)` registrations it
receives; when `_bt2BuildIndex` raises, no registration happens. -/
def preProcessRegistrations (tempRootDir referenceFile : String)
    (subproc : BackticksResult) : Except String (List (String × Bool)) :=
  match bt2BuildIndex tempRootDir referenceFile subproc with
  | .error e => .error e
  | .ok files => .ok (files.map (fun f => (f, true)))

/-- File names used by `_toCmd`, from the `PBAlignFiles` object. -/
structure FileNames where
  targetFileName : String
  queryFileName : String
  alignerSamOut : String
  deriving DecidableEq

/-- `BowtieService._toCmd`: the bowtie2 command string.  The numeric fields
are modelled as integers, so the source's `!= ""` guards on set values are
vacuously true here; `algorithmOptions` is appended whenever it is not
`None`, even when empty. -/
def toCmd (options : Options) (fileNames : FileNames)
    (defaultRootDir : String) : String :=
  let s := "bowtie2 "
  let s := match options.maxHits with
    | none => s
    | some m => s ++ " -k " ++ toString m
  let s := match options.nproc with
    | none => s
    | some n => s ++ " -p " ++ toString n
  let s := match options.algorithmOptions with
    | none => s
    | some ao => s ++ " " ++ ao ++ " "
  let s := match options.seed with
    | none => s
    | some sd => s ++ " --seed " ++ toString sd ++ " "
  let refBaseName := bt2BaseName defaultRootDir fileNames.targetFileName
  s ++ "-x " ++ refBaseName ++ " -f " ++ fileNames.queryFileName ++
    " -S " ++ fileNames.alignerSamOut ++ " "

/-- The whitespace-separated tokens of a command string (empty chunks from
repeated spaces dropped). -/
def cmdTokens (s : String) : List String :=
  (pySplit s).filter (fun t => t ≠ "")

/-- Options of the C1 scenario: `nproc` already set to 4, a `-p 8` inside
`algorithmOptions`. -/
def c1Opts : Options :=
  { maxHits := none, minAnchorSize := none, nproc := some 4, seed := none,
    algorithmOptions := some "-p 8" }

/-- Options of the C2 scenario: `maxHits` unset, `-k 7` inside
`algorithmOptions`. -/
def c2Opts : Options :=
  { maxHits := none, minAnchorSize := none, nproc := none, seed := none,
    algorithmOptions := some "-k 7" }

/-- Options of the C3 scenario: `--seed 5` inside `algorithmOptions`. -/
def c3Opts : Options :=
  { maxHits := none, minAnchorSize := none, nproc := none, seed := none,
    algorithmOptions := some "--seed 5" }

/-- Options of the C4 scenario: `maxHits` set to 5, a conflicting `-k 7`
inside `algorithmOptions`. -/
def c4Opts : Options :=
  { maxHits := some 5, minAnchorSize := some 10, nproc := none, seed := none,
    algorithmOptions := some "-k 7" }

/-- A plain options record for the C5 witness. -/
def c5Opts : Options :=
  { maxHits := none, minAnchorSize := none, nproc := none, seed := none,
    algorithmOptions := some "--version" }

/-- Options of the C6 command-construction scenario. -/
def c6Opts : Options :=
  { maxHits := some 5, minAnchorSize := none, nproc := some 4, seed := some 42,
    algorithmOptions := some "" }

/-- File names of the C6 command-construction scenario. -/
def c6Files : FileNames :=
  { targetFileName := "/r/ref.fa", queryFileName := "/q/q.fa",
    alignerSamOut := "/o/out.sam" }

/-- A failing `bowtie2-build` subprocess result for C8. -/
def c8Fail : BackticksResult :=
  { output := "", errCode := 1, errMsg := "bad format" }

/-- A succeeding `bowtie2-build` subprocess result for C8. -/
def c8Ok : BackticksResult :=
  { output := "", errCode := 0, errMsg := "" }

/-- Options of the C9 witness: `-k x` has a non-integer value, so the scan
raises a parse error. -/
def c9Opts : Options :=
  { maxHits := none, minAnchorSize := none, nproc := none, seed := none,
    algorithmOptions := some "-k x" }

/-- Options of the C10 scenario: structured `seed` unset, a `--seed 9` only
inside `algorithmOptions`. -/
def c10Opts : Options :=
  { maxHits := none, minAnchorSize := none, nproc := none, seed := none,
    algorithmOptions := some "--seed 9" }

/-- File names of the C10 scenario. -/
def c10Files : FileNames :=
  { targetFileName := "/r/ref.fa", queryFileName := "/q/q.fa",
    alignerSamOut := "/o/out.sam" }

/-- The scan loop only ever writes the `nproc` field: every other field of
the options record is the caller's, on normal exit and on an exception
alike. -/
theorem resolveLoop_preserves (opts : Options) (acc rem : List String) :
    (exceptOptions (resolveLoop opts acc rem)).maxHits = opts.maxHits ∧
    (exceptOptions (resolveLoop opts acc rem)).minAnchorSize = opts.minAnchorSize ∧
    (exceptOptions (resolveLoop opts acc rem)).seed = opts.seed ∧
    (exceptOptions (resolveLoop opts acc rem)).algorithmOptions = opts.algorithmOptions := by
  induction opts, acc, rem using resolveLoop.induct
  case case18 =>
    rw [resolveLoop.eq_def]
    simp_all
  case case19 =>
    rw [resolveLoop.eq_def]
    simp_all
  all_goals simp_all [resolveLoop, exceptOptions]

/-- Every token of the final item list either was already left behind in
`acc`, or is not one of the specially-treated tokens: the loop never lets a
special token survive past it. -/
theorem resolveLoop_mem_out (opts : Options) (acc rem : List String) :
    ∀ o out, resolveLoop opts acc rem = .ok (o, out) →
      ∀ x, x ∈ out → x ∈ acc ∨ x ∉ specialTokens := by
  induction opts, acc, rem using resolveLoop.induct
  case case18 opts acc item rest h1 h2 h3 h4 h5 ih =>
    intro o out h x hx
    rw [resolveLoop.eq_def] at h
    simp only [h1, h2, h3, h4, h5, if_neg, if_pos, ite_true, ite_false,
      if_false, reduceIte] at h
    exact ih o out h x hx
  case case19 opts acc item rest h1 h2 h3 h4 h5 ih =>
    intro o out h x hx
    rw [resolveLoop.eq_def] at h
    simp only [h1, h2, h3, h4, h5, if_neg, if_pos, ite_true, ite_false,
      if_false, reduceIte] at h
    rcases ih o out h x hx with hin | hout
    · rcases List.mem_append.mp hin with ha | hi
      · exact Or.inl ha
      · refine Or.inr ?_
        rcases List.mem_singleton.mp hi with rfl
        simp [specialTokens, ignoredBinaryOptions, ignoredUnitaryOptions] at h4 h5 ⊢
        exact ⟨h1, h2, h3, h4.1, h4.2.1, h4.2.2.1, h4.2.2.2.1, h4.2.2.2.2.1,
          h4.2.2.2.2.2.1, h4.2.2.2.2.2.2.1, h4.2.2.2.2.2.2.2.1,
          h4.2.2.2.2.2.2.2.2, h5.1, h5.2⟩
    · exact Or.inr hout
  all_goals simp_all [resolveLoop, specialTokens, ignoredBinaryOptions,
    ignoredUnitaryOptions]
  all_goals assumption

/-- C1: the claim says `-p N` inside algorithmOptions always completes and
overwrites `nproc`, whatever its prior value.  The code agrees only when
`nproc` was unset: when `nproc` is already set the `-p` branch reads the
misspelled attribute `options.npoc`, raising `AttributeError` (re-raised as
`ValueError`), so reconciliation fails instead of overwriting.  At the
failing input (`nproc = 4`, algorithmOptions `-p 8`) the call raises and
`nproc` stays 4; with `nproc` unset it indeed sets `nproc = 8` and consumes
both tokens. -/
theorem c1_p_overwrite_nproc_bug :
    (resolveAlgorithmOptions c1Opts).2 = some ResolveErr.attrErrorNpoc ∧
    (resolveAlgorithmOptions c1Opts).1.nproc = some 4 ∧
    (resolveAlgorithmOptions { c1Opts with nproc := none }).1 =
      { c1Opts with nproc := some 8, algorithmOptions := some "" } ∧
    (resolveAlgorithmOptions { c1Opts with nproc := none }).2 = none := by
  decide

/-- C2 counterexample: with `maxHits` unset and algorithmOptions `-k 7`,
reconciliation succeeds and removes the tokens, but `maxHits` is still
`none` afterwards, not 7: the `-k` branch never writes `maxHits`. -/
theorem c2_counterexample :
    (resolveAlgorithmOptions c2Opts).2 = none ∧
    (resolveAlgorithmOptions c2Opts).1.maxHits = none ∧
    ¬ (resolveAlgorithmOptions c2Opts).1.maxHits = some 7 ∧
    (resolveAlgorithmOptions c2Opts).1.algorithmOptions = some "" := by
  decide

/-- C2 (amended): with `maxHits` unset, a `-k N` pair in the token sequence
is consumed without a conflict and the options record is returned unchanged
— in particular `maxHits` stays unset rather than becoming `N` — and on any
successful scan no `-k` token remains in the final item list. -/
theorem c2_k_consumed_maxHits_unset (opts : Options)
    (hm : opts.maxHits = none) :
    (∀ v n, parseInt v = some n → resolveItems opts ["-k", v] = .ok (opts, [])) ∧
    (∀ items o out, resolveItems opts items = .ok (o, out) →
      o.maxHits = none ∧ "-k" ∉ out) := by
  constructor
  · intro v n hv
    simp [resolveItems, resolveLoop, hv, hm]
  · intro items o out h
    constructor
    · have hp := (resolveLoop_preserves opts [] items).1
      rw [resolveItems] at h
      rw [h] at hp
      simp only [exceptOptions] at hp
      rw [hp, hm]
    · intro hx
      rcases resolveLoop_mem_out opts [] items o out h "-k" hx with hc | hns
      · simp at hc
      · exact hns (by decide)

/-- C2 witness: at `maxHits` unset and the token pair `-k 7`, the scan
consumes both tokens and leaves the record unchanged. -/
theorem c2_k_consumed_witness :
    c2Opts.maxHits = none ∧ parseInt "7" = some 7 ∧
    resolveItems c2Opts ["-k", "7"] = .ok (c2Opts, []) :=
  ⟨by decide, by decide,
    (c2_k_consumed_maxHits_unset c2Opts (by decide)).1 "7" 7 (by decide)⟩

/-- C3 counterexample: `--seed 5` is not left untouched: reconciliation
succeeds and afterwards algorithmOptions is the empty string, so neither
the flag nor its value still appears. -/
theorem c3_counterexample :
    (resolveAlgorithmOptions c3Opts).2 = none ∧
    (resolveAlgorithmOptions c3Opts).1.algorithmOptions = some "" := by
  decide

/-- C3 (amended): a recognized ignored binary flag is consumed together
with its following value token — no conflict is raised and the options
record is untouched — and on any successful scan no such flag remains in
the final item list, so it does not reappear in the re-joined
algorithmOptions. -/
theorem c3_binary_flag_consumed (flag : String)
    (hf : flag ∈ ignoredBinaryOptions) :
    (∀ opts v, resolveItems opts [flag, v] = .ok (opts, [])) ∧
    (∀ opts items o out, resolveItems opts items = .ok (o, out) → flag ∉ out) := by
  constructor
  · intro opts v
    simp only [ignoredBinaryOptions, List.mem_cons, List.not_mem_nil,
      or_false] at hf
    rcases hf with rfl | rfl | rfl | rfl | rfl | rfl | rfl | rfl | rfl <;>
      simp [resolveItems, resolveLoop, ignoredBinaryOptions]
  · intro opts items o out h hx
    rcases resolveLoop_mem_out opts [] items o out h flag hx with hc | hns
    · simp at hc
    · exact hns (List.mem_cons_of_mem _ (List.mem_cons_of_mem _
        (List.mem_cons_of_mem _ (List.mem_append_left _ hf))))

/-- C3 witness: `--seed` is an ignored binary flag, and the scan on exactly
`--seed 5` consumes both tokens without touching the options. -/
theorem c3_binary_flag_witness :
    "--seed" ∈ ignoredBinaryOptions ∧
    resolveItems c3Opts ["--seed", "5"] = .ok (c3Opts, []) :=
  ⟨by decide, (c3_binary_flag_consumed "--seed" (by decide)).1 c3Opts "5"⟩

/-- C4: when the scan reaches `-k v` with `maxHits` set to `m` and `v`
parsing to an integer `n ≠ m`, it raises the conflict error naming the flag
`-k` and the option `--maxHits`, with the options record as it was;
symmetrically `-L` conflicts with `--minAnchorSize`.  The model is pure, so
no file-system state exists for the failure to alter.  Concretely, the full
reconciliation of `maxHits = 5` with algorithmOptions `-k 7` raises this
conflict. -/
theorem c4_conflict_k_and_L (opts : Options) (acc rest : List String)
    (v : String) (n m : Int) (hv : parseInt v = some n) (hne : n ≠ m) :
    (opts.maxHits = some m →
      resolveLoop opts acc ("-k" :: v :: rest) =
        .error (opts, ResolveErr.conflict "-k" "--maxHits")) ∧
    (opts.minAnchorSize = some m →
      resolveLoop opts acc ("-L" :: v :: rest) =
        .error (opts, ResolveErr.conflict "-L" "--minAnchorSize")) ∧
    (resolveAlgorithmOptions c4Opts).2 =
      some (ResolveErr.conflict "-k" "--maxHits") := by
    refine ⟨?_, ?_, by decide⟩ <;> intro hset <;>
      simp [resolveLoop, hv, hset, hne.symm]

/-- C4 witness: `maxHits = 5` against `-k 7` raises the `-k`/`--maxHits`
conflict with the record untouched. -/
theorem c4_conflict_witness :
    parseInt "7" = some 7 ∧ (7 : Int) ≠ (5 : Int) ∧ c4Opts.maxHits = some 5 ∧
    resolveLoop c4Opts [] ["-k", "7"] =
      .error (c4Opts, ResolveErr.conflict "-k" "--maxHits") :=
  ⟨by decide, by decide, by decide,
    (c4_conflict_k_and_L c4Opts [] [] "7" 7 5 (by decide) (by decide)).1
      (by decide)⟩

/-- C5: a unitary flag (`--version` or `--help`) is removed as a single
token: the scan step on it equals the scan on the remaining tokens with the
same options, same kept prefix and same index, so no value token is
consumed and an adjacent duplicate is removed by the very next step; on any
successful scan no unitary flag remains in the final item list; and a token
list holding only the flag resolves to the empty list with untouched
options. -/
theorem c5_unitary_flag_removed (u : String)
    (hu : u ∈ ignoredUnitaryOptions) :
    (∀ opts acc rest, resolveLoop opts acc (u :: rest) =
      resolveLoop opts acc rest) ∧
    (∀ opts acc rest, resolveLoop opts acc (u :: u :: rest) =
      resolveLoop opts acc rest) ∧
    (∀ opts items o out, resolveItems opts items = .ok (o, out) → u ∉ out) ∧
    (∀ opts, resolveItems opts [u] = .ok (opts, [])) := by
  have step : ∀ opts acc rest, resolveLoop opts acc (u :: rest) =
      resolveLoop opts acc rest := by
    intro opts acc rest
    have hu2 : u = "--version" ∨ u = "--help" := by
      simpa [ignoredUnitaryOptions] using hu
    rcases hu2 with rfl | rfl <;>
      (conv_lhs => rw [resolveLoop.eq_def]) <;>
      simp [ignoredBinaryOptions, ignoredUnitaryOptions]
  refine ⟨step, ?_, ?_, ?_⟩
  · intro opts acc rest
    rw [step, step]
  · intro opts items o out h hx
    rcases resolveLoop_mem_out opts [] items o out h u hx with hc | hns
    · simp at hc
    · exact hns (List.mem_cons_of_mem _ (List.mem_cons_of_mem _
        (List.mem_cons_of_mem _ (List.mem_append_right _ hu))))
  · intro opts
    rw [resolveItems, step]
    rfl

/-- C5 witness: `--version` alone is removed and the scan succeeds with
untouched options. -/
theorem c5_unitary_flag_witness :
    "--version" ∈ ignoredUnitaryOptions ∧
    resolveItems c5Opts ["--version"] = .ok (c5Opts, []) :=
  ⟨by decide, (c5_unitary_flag_removed "--version" (by decide)).2.2.2 c5Opts⟩

/-- C6: the command for options `maxHits 5, nproc 4, algorithmOptions "",
seed 42`, the given file names and working directory `/tmp` is exactly the
fixed-order string, whose whitespace tokens are `bowtie2 -k 5 -p 4 --seed
42 -x /tmp/ref -f /q/q.fa -S /o/out.sam` — the set-but-empty
algorithmOptions contributes its (empty) segment between `-p` and `--seed`,
as the non-empty variant shows.  Unsetting a field drops exactly its
segment while the remaining segments keep the same order, and an unset
algorithmOptions yields the same tokens as the empty one. -/
theorem c6_toCmd_fixed_order :
    toCmd c6Opts c6Files "/tmp" =
      "bowtie2  -k 5 -p 4   --seed 42 -x /tmp/ref -f /q/q.fa -S /o/out.sam " ∧
    cmdTokens (toCmd c6Opts c6Files "/tmp") =
      ["bowtie2", "-k", "5", "-p", "4", "--seed", "42",
       "-x", "/tmp/ref", "-f", "/q/q.fa", "-S", "/o/out.sam"] ∧
    cmdTokens (toCmd { c6Opts with maxHits := none } c6Files "/tmp") =
      ["bowtie2", "-p", "4", "--seed", "42",
       "-x", "/tmp/ref", "-f", "/q/q.fa", "-S", "/o/out.sam"] ∧
    cmdTokens (toCmd { c6Opts with nproc := none } c6Files "/tmp") =
      ["bowtie2", "-k", "5", "--seed", "42",
       "-x", "/tmp/ref", "-f", "/q/q.fa", "-S", "/o/out.sam"] ∧
    cmdTokens (toCmd { c6Opts with seed := none } c6Files "/tmp") =
      ["bowtie2", "-k", "5", "-p", "4",
       "-x", "/tmp/ref", "-f", "/q/q.fa", "-S", "/o/out.sam"] ∧
    cmdTokens (toCmd { c6Opts with algorithmOptions := none } c6Files "/tmp") =
      cmdTokens (toCmd c6Opts c6Files "/tmp") ∧
    cmdTokens (toCmd { c6Opts with algorithmOptions := some "-a 1" } c6Files "/tmp") =
      ["bowtie2", "-k", "5", "-p", "4", "-a", "1", "--seed", "42",
       "-x", "/tmp/ref", "-f", "/q/q.fa", "-S", "/o/out.sam"] := by
  decide

/-- C7: index path resolution is a pure function of its inputs:
`bt2BaseName "/tmp" "/data/ref.fasta"` is `"/tmp/ref"` (working directory
joined with the reference file stem), and for every base name the index
file list is exactly the six paths with suffixes `1.bt2`, `2.bt2`, `3.bt2`,
`4.bt2`, `rev.1.bt2`, `rev.2.bt2`, each dot-joined, in this fixed order. -/
theorem c7_index_paths :
    bt2BaseName "/tmp" "/data/ref.fasta" = "/tmp/ref" ∧
    (∀ b : String, bt2IndexFiles b =
      [b ++ "." ++ "1.bt2", b ++ "." ++ "2.bt2", b ++ "." ++ "3.bt2",
       b ++ "." ++ "4.bt2", b ++ "." ++ "rev.1.bt2", b ++ "." ++ "rev.2.bt2"]) := by
  exact ⟨by decide, fun b => rfl⟩

/-- C8: when `bowtie2-build` exits non-zero, `_bt2BuildIndex` raises
carrying the subprocess diagnostic text and `_preProcess` registers no
artifact; when it exits 0, `_bt2BuildIndex` returns the six index paths of
the path resolver in order and `_preProcess` registers exactly those, each
with `own = true`. -/
theorem c8_build_index (tempDir referenceFile : String) (r : BackticksResult) :
    (r.errCode ≠ 0 →
      bt2BuildIndex tempDir referenceFile r = .error r.errMsg ∧
      preProcessRegistrations tempDir referenceFile r = .error r.errMsg) ∧
    (r.errCode = 0 →
      bt2BuildIndex tempDir referenceFile r =
        .ok (bt2IndexFiles (bt2BaseName tempDir referenceFile)) ∧
      preProcessRegistrations tempDir referenceFile r =
        .ok ((bt2IndexFiles (bt2BaseName tempDir referenceFile)).map
          (fun f => (f, true)))) := by
  constructor <;> intro h <;>
    simp [bt2BuildIndex, preProcessRegistrations, h]

/-- C8 witness: exit code 1 with stderr `bad format` raises carrying
`bad format` and registers nothing; exit code 0 returns and registers the
six index files with `own = true`. -/
theorem c8_build_index_witness :
    (c8Fail.errCode ≠ 0 ∧
      (bt2BuildIndex "/tmp" "/data/ref.fasta" c8Fail = .error "bad format" ∧
       preProcessRegistrations "/tmp" "/data/ref.fasta" c8Fail =
         .error "bad format")) ∧
    (c8Ok.errCode = 0 ∧
      (bt2BuildIndex "/tmp" "/data/ref.fasta" c8Ok =
        .ok (bt2IndexFiles (bt2BaseName "/tmp" "/data/ref.fasta")) ∧
       preProcessRegistrations "/tmp" "/data/ref.fasta" c8Ok =
        .ok ((bt2IndexFiles (bt2BaseName "/tmp" "/data/ref.fasta")).map
          (fun f => (f, true))))) :=
  ⟨⟨by decide, (c8_build_index "/tmp" "/data/ref.fasta" c8Fail).1 (by decide)⟩,
   ⟨by decide, (c8_build_index "/tmp" "/data/ref.fasta" c8Ok).2 (by decide)⟩⟩

/-- C9: whenever `_resolveAlgorithmOptions` raises, the `algorithmOptions`
field still holds exactly its original pre-call string: the re-joined item
list is written back only after the whole scan completed. -/
theorem c9_ao_unchanged_on_error (opts : Options) (e : ResolveErr)
    (h : (resolveAlgorithmOptions opts).2 = some e) :
    (resolveAlgorithmOptions opts).1.algorithmOptions = opts.algorithmOptions := by
  cases hao : opts.algorithmOptions with
  | none => simp [resolveAlgorithmOptions, hao] at h
  | some ao =>
    cases hr : resolveItems opts (pySplit ao) with
    | ok p => simp [resolveAlgorithmOptions, hao, hr] at h
    | error p =>
      obtain ⟨o, err⟩ := p
      have hp := (resolveLoop_preserves opts [] (pySplit ao)).2.2.2
      rw [resolveItems] at hr
      rw [hr] at hp
      simp only [exceptOptions] at hp
      simp [resolveAlgorithmOptions, hao, resolveItems, hr, hp]

/-- C9 witness: `-k x` raises a parse error, and afterwards
`algorithmOptions` still holds the original string `-k x`. -/
theorem c9_ao_unchanged_witness :
    (resolveAlgorithmOptions c9Opts).2 = some (ResolveErr.parseError "x") ∧
    (resolveAlgorithmOptions c9Opts).1.algorithmOptions = c9Opts.algorithmOptions :=
  ⟨by decide,
    c9_ao_unchanged_on_error c9Opts (ResolveErr.parseError "x") (by decide)⟩

/-- C10: `--seed` is one of the ignored binary flags; the scan never writes
the structured `seed` field (on success and on exception alike), and on any
successful scan no `--seed` token survives in the item list, so the only
`--seed` segment `_toCmd` can emit is the one built from the structured
field.  Concretely: with `seed` unset and algorithmOptions `--seed 9`,
reconciliation empties algorithmOptions and the built command has no
`--seed` token at all, while setting the structured seed to 7 on the same
resolved record emits exactly `--seed 7`. -/
theorem c10_seed_from_structured_field_only :
    "--seed" ∈ ignoredBinaryOptions ∧
    (∀ opts acc rem, (exceptOptions (resolveLoop opts acc rem)).seed = opts.seed) ∧
    (∀ opts items o out, resolveItems opts items = .ok (o, out) → "--seed" ∉ out) ∧
    (resolveAlgorithmOptions c10Opts).1.seed = none ∧
    (resolveAlgorithmOptions c10Opts).1.algorithmOptions = some "" ∧
    cmdTokens (toCmd (resolveAlgorithmOptions c10Opts).1 c10Files "/tmp") =
      ["bowtie2", "-x", "/tmp/ref", "-f", "/q/q.fa", "-S", "/o/out.sam"] ∧
    cmdTokens (toCmd { (resolveAlgorithmOptions c10Opts).1 with seed := some 7 }
        c10Files "/tmp") =
      ["bowtie2", "--seed", "7", "-x", "/tmp/ref", "-f", "/q/q.fa",
       "-S", "/o/out.sam"] := by
  refine ⟨by decide, ?_, ?_, by decide, by decide, by decide, by decide⟩
  · intro opts acc rem
    exact (resolveLoop_preserves opts acc rem).2.2.1
  · intro opts items o out h hx
    rcases resolveLoop_mem_out opts [] items o out h "--seed" hx with hc | hns
    · simp at hc
    · exact hns (by decide)

/-- C10 witness: the scan on exactly `--seed 9` consumes both tokens, so no
`--seed` token is in the (empty) output list. -/
theorem c10_seed_witness :
    resolveItems c10Opts ["--seed", "9"] = .ok (c10Opts, []) ∧
    "--seed" ∉ ([] : List String) :=
  ⟨by rfl,
    c10_seed_from_structured_field_only.2.2.1 c10Opts ["--seed", "9"]
      c10Opts [] (by rfl)⟩
